import Mathlib

/-!
Verification of the pyreadwise client library (`readwise/api.py`).

The development shallowly embeds the parts of the code the claims are
about: the `_request` 429 retry loop of `Readwise` and `ReadwiseReader`,
the offset-paged pagination driver `Readwise._get_pagination`, the
cursor-paged driver `ReadwiseReader._get_pagination` (including its
`ChunkedEncodingError` handling and its in-place mutation of the `params`
dictionary), the timestamp decoding expressions of `get_books` /
`get_book_highlights` / `get_documents`, and the request-body
construction of `create_highlight` and `create_document`.

HTTP transport is modelled as a script: the finite list of responses the
server gives, in the order the requests are issued.  Decoded JSON values
are modelled by the inductive `Json`; Python dictionaries (with their
insertion-order and in-place `update` semantics) by ordered association
lists.
-/

set_option autoImplicit false

namespace Readwise

/-- A decoded JSON value, as produced by `response.json()`.  Python maps
JSON `null` to `None`, objects to `dict` (insertion ordered), arrays to
`list`. -/
inductive Json where
  | null
  | bool (b : Bool)
  | num (n : Int)
  | str (s : String)
  | list (items : List Json)
  | obj (fields : List (String × Json))
deriving Repr

/-- Python truthiness `bool(v)` on a decoded JSON value: `None`, `False`,
`0`, `''`, `[]` and `\x7b\x7d` are falsy, everything else truthy. -/
def Json.truthy : Json → Bool
  | .null => false
  | .bool b => b
  | .num n => n != 0
  | .str s => !s.isEmpty
  | .list items => !items.isEmpty
  | .obj fields => !fields.isEmpty

/-- Whether the value is a JSON array, i.e. Python `type(data) == list`. -/
def Json.isList : Json → Bool
  | .list _ => true
  | _ => false

def Json.isNull : Json → Bool
  | .null => true
  | _ => false

mutual
/-- Python `==` on decoded JSON values.  Strings, numbers, booleans and
`None` compare as in Python (including `True == 1`); lists compare
pointwise.  Dictionaries are compared field-by-field in insertion order,
which agrees with Python whenever the two objects list their keys in the
same order (always the case for the cursor values the code compares). -/
def pyEq : Json → Json → Bool
  | .null, .null => true
  | .bool a, .bool b => a == b
  | .bool a, .num n => n == (if a then (1 : Int) else 0)
  | .num n, .bool a => n == (if a then (1 : Int) else 0)
  | .num a, .num b => a == b
  | .str a, .str b => a == b
  | .list a, .list b => pyEqList a b
  | .obj a, .obj b => pyEqFields a b
  | _, _ => false

def pyEqList : List Json → List Json → Bool
  | [], [] => true
  | a :: as, b :: bs => pyEq a b && pyEqList as bs
  | _, _ => false

def pyEqFields : List (String × Json) → List (String × Json) → Bool
  | [], [] => true
  | (k, v) :: as, (k', v') :: bs => k == k' && pyEq v v' && pyEqFields as bs
  | _, _ => false
end

/-- A Python `dict` with JSON values: an insertion-ordered association
list (keys unique by construction of the operations below). -/
abbrev Dict := List (String × Json)

/-- `d.get(k)`, with the Python convention that a missing key yields
`None` (which is also what JSON `null` decodes to). -/
def dictGet (d : Dict) (k : String) : Json :=
  match d.find? (fun kv => kv.1 == k) with
  | some kv => kv.2
  | none => Json.null

/-- `d[k] = v` / `d.update(\x7bk: v\x7d)`: replace the value in place if the
key is present (keeping its position), else append. -/
def dictSet (d : Dict) (k : String) (v : Json) : Dict :=
  match d with
  | [] => [(k, v)]
  | (k', v') :: rest =>
      if k' == k then (k', v) :: rest else (k', v') :: dictSet rest k v

/-- `\x7b**base, **extra\x7d`-style merge: start from `base` and set each pair
of `extra` in order. -/
def dictMerge (base extra : Dict) : Dict :=
  extra.foldl (fun d kv => dictSet d kv.1 kv.2) base

/-! ### The `_request` method (both clients)

`Readwise._request` and `ReadwiseReader._request` are textually
identical apart from the base URL: send the request with `json=data`,
then while the status is 429 read `int(response.headers['Retry-After'])`,
sleep and resend — the resend passing `data=data` instead of
`json=data` — and finally `raise_for_status()`. -/

/-- How the request body is passed to `requests`: `json=data` sends a
JSON-encoded body, `data=data` a form-encoded one. -/
inductive BodyEncoding where
  | jsonEnc
  | formEnc
deriving Repr, DecidableEq

/-- One HTTP request as handed to `requests.Session.request`. -/
structure WireRequest where
  method : String
  url : String
  params : Dict
  encoding : BodyEncoding
  body : Dict
deriving Repr

/-- An HTTP response: status code, headers and decoded JSON body. -/
structure HttpResponse where
  status : Nat
  headers : List (String × String)
  body : Json
deriving Repr

/-- `response.headers[k]` (case sensitivity elided: the code and the
claims use the literal key `Retry-After`). -/
def headerGet (hs : List (String × String)) (k : String) : Option String :=
  match hs.find? (fun kv => kv.1 == k) with
  | some kv => some kv.2
  | none => none

/-- Python `int(s)` on a string: optional surrounding whitespace and an
optional sign followed by one or more digits; anything else raises
`ValueError` (underscore separators elided). -/
def pyInt? (s : String) : Option Int :=
  let cs := ((s.toList.dropWhile (fun c => c.isWhitespace)).reverse.dropWhile
    (fun c => c.isWhitespace)).reverse
  let signed : Bool × List Char :=
    match cs with
    | '-' :: rest => (true, rest)
    | '+' :: rest => (false, rest)
    | other => (false, other)
  if signed.2.isEmpty || !signed.2.all (fun c => c.isDigit) then none
  else
    let n : Nat := signed.2.foldl (fun acc d => acc * 10 + (d.toNat - '0'.toNat)) 0
    some (if signed.1 then -(n : Int) else (n : Int))

/-- The Python exceptions the embedded `_request` can raise.
`readwiseRateLimitException` stands for the `ReadwiseRateLimitException`
class declared at the top of `api.py`; `scriptEnded` marks a trace cut
short before the server answered the last request (no code behaviour
corresponds to it). -/
inductive PyError where
  | keyError
  | valueError
  | httpError (status : Nat)
  | readwiseRateLimitException
  | scriptEnded
deriving Repr, DecidableEq

/-- The observable behaviour of one `_request` call: the wire requests
issued in order, the `sleep` durations in order, and the outcome. -/
structure RequestTrace where
  requests : List WireRequest
  sleeps : List Int
  result : Except PyError HttpResponse
deriving Repr

/-- The 429 loop of `_request`, consuming the script of responses: while
the status is 429, parse `Retry-After`, sleep, and resend with
`data=data` (form encoding); then `raise_for_status()` and return. -/
def requestLoop (method url : String) (params data : Dict) :
    List HttpResponse → List WireRequest × List Int × Except PyError HttpResponse
  | [] => ([], [], .error .scriptEnded)
  | r :: rest =>
    if r.status == 429 then
      match headerGet r.headers "Retry-After" with
      | none => ([], [], .error .keyError)
      | some s =>
        match pyInt? s with
        | none => ([], [], .error .valueError)
        | some secs =>
          let t := requestLoop method url params data rest
          (⟨method, url, params, .formEnc, data⟩ :: t.1, secs :: t.2.1, t.2.2)
    else if 400 ≤ r.status then ([], [], .error (.httpError r.status))
    else ([], [], .ok r)

/-- `_request(method, endpoint, params, data)`: the initial request is
sent with `json=data` (JSON body encoding), then the 429 loop runs. -/
def readwise_request (baseUrl method endpoint : String) (params data : Dict)
    (script : List HttpResponse) : RequestTrace :=
  let url := baseUrl ++ endpoint
  let t := requestLoop method url params data script
  ⟨⟨method, url, params, .jsonEnc, data⟩ :: t.1, t.2.1, t.2.2⟩

/-- Base URL of the legacy `Readwise` client. -/
def v2Url : String := "https://readwise.io/api/v2"

/-- Base URL of the `ReadwiseReader` client. -/
def v3Url : String := "https://readwise.io/api/v3"

/-- `Readwise.get`: a GET `_request` with empty body. -/
def readwise_get (endpoint : String) (params : Dict)
    (script : List HttpResponse) : RequestTrace :=
  readwise_request v2Url "GET" endpoint params [] script

/-- `Readwise.get_with_limit_20`: the body is exactly
`return self.get(endpoint, params)`. -/
def readwise_get_with_limit_20 (endpoint : String) (params : Dict)
    (script : List HttpResponse) : RequestTrace :=
  readwise_get endpoint params script

/-- Whether an outcome is the `ReadwiseRateLimitException`. -/
def isRateLimitError : Except PyError HttpResponse → Bool
  | .error .readwiseRateLimitException => true
  | _ => false

/-! ### Pagination drivers

Both drivers are modelled at the level of decoded page bodies: the
script lists, in request order, either the decoded JSON body the `get`
call produced or the `ChunkedEncodingError` it raised.  Endpoint
plumbing is elided; the `params` dictionaries sent with each page
request are recorded. -/

/-- The transport exception `requests.models.ChunkedEncodingError`. -/
inductive TransportError where
  | chunkedEncodingError
deriving Repr, DecidableEq

/-- `data.get(k)` where `data` is a decoded body: `None` when `data`
is not an object or the key is absent. -/
def Json.get : Json → String → Json
  | .obj fields, k => dictGet fields k
  | _, _ => .null

/-- Observable behaviour of one run of `Readwise._get_pagination`:
the `params` of each request issued, the bodies yielded, the exception
propagated (if any), and whether the loop hit its `break`
(`finished = false` with `raised = none` means the script ended while
the loop still wanted another page). -/
structure OffsetWalk where
  requests : List Dict
  yields : List Json
  raised : Option TransportError
  finished : Bool
deriving Repr

/-- The `params` dict sent for one offset page:
`dict(page=..., page_size=..., **params)`. -/
def offsetParams (page pageSize : Nat) (params : Dict) : Dict :=
  dictMerge [("page", .num page), ("page_size", .num pageSize)] params

/-- The legacy stop test: `type(data) == list or not data.get('next')`. -/
def offsetStop (data : Json) : Bool :=
  data.isList || !(data.get "next").truthy

/-- `Readwise._get_pagination` from a given page number: request, yield
the body, stop on `offsetStop`, else increment `page` and repeat.  A
`ChunkedEncodingError` from the `get` call propagates out of the
generator. -/
def offset_get_pagination (pageSize : Nat) (params : Dict) (page : Nat) :
    List (Except TransportError Json) → OffsetWalk
  | [] => ⟨[], [], none, false⟩
  | .error e :: _ => ⟨[offsetParams page pageSize params], [], some e, false⟩
  | .ok data :: rest =>
    if offsetStop data then
      ⟨[offsetParams page pageSize params], [data], none, true⟩
    else
      let w := offset_get_pagination pageSize params (page + 1) rest
      ⟨offsetParams page pageSize params :: w.requests, data :: w.yields,
        w.raised, w.finished⟩

/-- `Readwise.get_pagination`: starts at page 1 with the default
`page_size` of 1000. -/
def readwise_get_pagination (params : Dict)
    (script : List (Except TransportError Json)) : OffsetWalk :=
  offset_get_pagination 1000 params 1 script

/-- `Readwise.get_pagination_limit_20`: same driver through
`get_with_limit_20`, `page_size` overridable (default 1000). -/
def readwise_get_pagination_limit_20 (params : Dict)
    (script : List (Except TransportError Json))
    (pageSize : Nat := 1000) : OffsetWalk :=
  offset_get_pagination pageSize params 1 script

/-- Observable behaviour of one run of `ReadwiseReader._get_pagination`,
plus the final state of the `params` dictionary, which the loop mutates
in place via `params.update(...)`. -/
structure ReaderWalk where
  requests : List Dict
  sleeps : List Nat
  yields : List Json
  finished : Bool
  finalParams : Dict
deriving Repr

/-- The reader stop test:
`type(data) == list or not data.get('nextPageCursor') or
data.get('nextPageCursor') == pageCursor`. -/
def readerStop (data cursor : Json) : Bool :=
  data.isList || !(data.get "nextPageCursor").truthy
    || pyEq (data.get "nextPageCursor") cursor

/-- The in-place `if pageCursor: params.update(...)` at the top of each
iteration of `ReadwiseReader._get_pagination`. -/
def readerPs (pageCursor : Json) (params : Dict) : Dict :=
  if pageCursor.truthy then dictSet params "pageCursor" pageCursor else params

/-- `ReadwiseReader._get_pagination` from a given cursor (`Json.null`
models the initial `pageCursor = None`).  Each iteration first writes
the cursor into `params` (in place) when it is truthy, then issues the
request; a `ChunkedEncodingError` is caught, `sleep(5)` runs and the
loop `continue`s with the same cursor; otherwise the body is yielded
and the loop stops on `readerStop` or advances to `nextPageCursor`. -/
def reader_get_pagination (pageCursor : Json) (params : Dict) :
    List (Except TransportError Json) → ReaderWalk
  | [] => ⟨[], [], [], false, params⟩
  | .error _ :: rest =>
    let ps := readerPs pageCursor params
    let w := reader_get_pagination pageCursor ps rest
    ⟨ps :: w.requests, 5 :: w.sleeps, w.yields, w.finished, w.finalParams⟩
  | .ok data :: rest =>
    let ps := readerPs pageCursor params
    if readerStop data pageCursor then
      ⟨[ps], [], [data], true, ps⟩
    else
      let w := reader_get_pagination (data.get "nextPageCursor") ps rest
      ⟨ps :: w.requests, w.sleeps, data :: w.yields, w.finished, w.finalParams⟩

/-- One invocation of `ReadwiseReader.get_documents` (at pagination
level): `pageCursor` starts as `None`, `params` is whatever dictionary
object the call received. -/
def reader_documents_walk (params : Dict)
    (script : List (Except TransportError Json)) : ReaderWalk :=
  reader_get_pagination .null params script

/-- Two successive invocations of `get_documents()` with no `params`
argument.  In Python the default `params: dict = \x7b\x7d` is a single
dictionary object created once at function definition time and shared by
both calls, and `_get_pagination` mutates it in place via
`params.update(\x7b'pageCursor': pageCursor\x7d)`; hence the second call
starts from the dictionary state the first call left behind. -/
def get_documents_twice (s1 s2 : List (Except TransportError Json)) :
    ReaderWalk × ReaderWalk :=
  let w1 := reader_documents_walk [] s1
  let w2 := reader_documents_walk w1.finalParams s2
  (w1, w2)

/-! ### Entity-mapper timestamp decoding

`get_books` / `get_book_highlights` decode the nullable fields with
`datetime.fromisoformat(x) if x else None`; `get_documents` decodes
`created_at` / `updated_at` with a bare `datetime.fromisoformat(x)`.
`datetime.fromisoformat` itself is standard-library code, modelled as a
parameter `fromiso` returning `none` exactly when it would raise
`ValueError`. -/

/-- Errors the decoding expressions can raise. -/
inductive DecodeError where
  | valueError
  | typeError
deriving Repr, DecidableEq

/-- `datetime.fromisoformat(v) if v else None`: a falsy source value
(null or empty string) decodes to the explicit absent value without any
parse attempt; a truthy string is parsed; a truthy non-string would
raise `TypeError` in `fromisoformat`. -/
def decodeNullableTimestamp {τ : Type} (fromiso : String → Option τ)
    (v : Json) : Except DecodeError (Option τ) :=
  if v.truthy then
    match v with
    | .str s =>
      match fromiso s with
      | some t => .ok (some t)
      | none => .error .valueError
    | _ => .error .typeError
  else .ok none

/-- A bare `datetime.fromisoformat(v)`: always parses; malformed or
non-string input raises. -/
def decodeRequiredTimestamp {τ : Type} (fromiso : String → Option τ)
    (v : Json) : Except DecodeError τ :=
  match v with
  | .str s =>
    match fromiso s with
    | some t => .ok t
    | none => .error .valueError
  | _ => .error .typeError

/-! ### Write-operation body construction -/

/-- `if v: payload[k] = v` for an optional string argument: included
only when provided and truthy (non-empty). -/
def addIfTruthy (p : Dict) (k : String) (v : Option String) : Dict :=
  match v with
  | some s => if s.isEmpty then p else dictSet p k (.str s)
  | none => p

/-- The `payload` dict built by `Readwise.create_highlight`.  The
datetime type is abstract (`δ`) with its `isoformat` method passed in;
`if highlighted_at:` is a `None` test because `datetime` objects are
always truthy. -/
def create_highlight_payload {δ : Type} (isoformat : δ → String)
    (text title : String) (author : Option String := none)
    (highlighted_at : Option δ := none) (source_url : Option String := none)
    (category : String := "articles") (note : Option String := none) : Dict :=
  let p : Dict := [("text", .str text), ("title", .str title),
    ("category", .str category)]
  let p := addIfTruthy p "author" author
  let p := match highlighted_at with
    | some d => dictSet p "highlighted_at" (.str (isoformat d))
    | none => p
  let p := addIfTruthy p "source_url" source_url
  addIfTruthy p "note" note

/-- The request body `create_highlight` posts to `/highlights/`:
`\x7b'highlights': [payload]\x7d`. -/
def create_highlight_body {δ : Type} (isoformat : δ → String)
    (text title : String) (author : Option String := none)
    (highlighted_at : Option δ := none) (source_url : Option String := none)
    (category : String := "articles") (note : Option String := none) : Json :=
  .obj [("highlights", .list [.obj (create_highlight_payload isoformat
    text title author highlighted_at source_url category note)])]

/-- The `data` dict built by `ReadwiseReader.create_document`.  `url`,
`tags` and `location` are always present; every optional string and
`published_at` are included by truthiness, while `should_clean_html`
is included whenever it `is not None`. -/
def create_document_data {δ : Type} (isoformat : δ → String) (url : String)
    (html : Option String := none) (should_clean_html : Option Bool := none)
    (title : Option String := none) (author : Option String := none)
    (summary : Option String := none) (published_at : Option δ := none)
    (image_url : Option String := none) (location : String := "new")
    (saved_using : Option String := none) (tags : List String := []) : Dict :=
  let d : Dict := [("url", .str url), ("tags", .list (tags.map .str)),
    ("location", .str location)]
  let d := addIfTruthy d "html" html
  let d := match should_clean_html with
    | some b => dictSet d "should_clean_html" (.bool b)
    | none => d
  let d := addIfTruthy d "title" title
  let d := addIfTruthy d "author" author
  let d := addIfTruthy d "summary" summary
  let d := match published_at with
    | some t => dictSet d "published_at" (.str (isoformat t))
    | none => d
  let d := addIfTruthy d "image_url" image_url
  addIfTruthy d "saved_using" saved_using

/-! ### Specification-side helpers -/

/-- Python truthiness of an optional string argument (`None` and `''`
are falsy). -/
def pyStrTruthy : Option String → Bool
  | none => false
  | some s => !s.isEmpty

/-- Key membership in a dict. -/
def dictHas (d : Dict) (k : String) : Bool :=
  d.any (fun kv => kv.1 == k)

/-- The prefix of a list up to and including the first element
satisfying `p` (the whole list when no element does). -/
def takeThrough (p : Json → Bool) : List Json → List Json
  | [] => []
  | x :: xs => x :: (if p x then [] else takeThrough p xs)

end Readwise

namespace Readwise

/-! ## Theorems -/

/-- Auxiliary: the 429 loop can never produce the
`ReadwiseRateLimitException` outcome — no branch of `_request`
raises it. -/
theorem requestLoop_never_rate_limit (method url : String) (params data : Dict)
    (script : List HttpResponse) :
    isRateLimitError (requestLoop method url params data script).2.2 = false := by
  induction script with
  | nil => rfl
  | cons r rest ih =>
    simp only [requestLoop]
    split
    · split
      · rfl
      · split
        · rfl
        · simpa using ih
    · split
      · rfl
      · rfl

/-- C1: on a 429 response with `Retry-After: 3`, `_request` sleeps 3
seconds, resends once, and the caller receives the 200 response rather
than the 429 — but the resend is NOT the identical request: the initial
send passes the body as `json=data` (JSON-encoded) while the resend
passes it as `data=data` (form-encoded), so the body encoding of the
resend differs from that of the original request.  Evaluated at the
failing input: a POST whose first answer is 429 (`Retry-After: 3`) and
whose second answer is 200. -/
theorem request_429_resend_changes_body_encoding :
    let script : List HttpResponse :=
      [⟨429, [("Retry-After", "3")], .null⟩, ⟨200, [], .obj [("id", .num 7)]⟩]
    let t := readwise_request v2Url "POST" "/highlights/"
      [] [("text", .str "quote")] script
    t.sleeps = [3] ∧
    t.result = .ok ⟨200, [], .obj [("id", .num 7)]⟩ ∧
    t.requests.map (fun r => r.method) = ["POST", "POST"] ∧
    t.requests.map (fun r => r.url) =
      ["https://readwise.io/api/v2/highlights/",
       "https://readwise.io/api/v2/highlights/"] ∧
    t.requests.map (fun r => r.body) =
      [[("text", .str "quote")], [("text", .str "quote")]] ∧
    t.requests.map (fun r => r.encoding) = [.jsonEnc, .formEnc] :=
  ⟨rfl, rfl, rfl, rfl, rfl, rfl⟩

/-- Auxiliary: the offset driver yields the script prefix up to and
including the first stopping body. -/
theorem offset_yields_eq (pageSize : Nat) (params : Dict) (page : Nat)
    (script : List Json) :
    (offset_get_pagination pageSize params page (script.map Except.ok)).yields
      = takeThrough offsetStop script := by
  induction script generalizing page with
  | nil => rfl
  | cons x xs ih =>
    by_cases hx : offsetStop x
    · simp [offset_get_pagination, takeThrough, hx]
    · simp [offset_get_pagination, takeThrough, hx, ih (page + 1)]

/-- Auxiliary: the offset driver sends `page, page+1, ...` with the
fixed page size and the caller's filters merged over them. -/
theorem offset_requests_eq (pageSize : Nat) (params : Dict) (page : Nat)
    (script : List Json) :
    (offset_get_pagination pageSize params page (script.map Except.ok)).requests
      = (List.range (takeThrough offsetStop script).length).map
          (fun i => offsetParams (page + i) pageSize params) := by
  induction script generalizing page with
  | nil => rfl
  | cons x xs ih =>
    by_cases hx : offsetStop x
    · simp [offset_get_pagination, takeThrough, hx]
      rfl
    · simp only [List.map_cons, offset_get_pagination, hx, if_false,
        Bool.false_eq_true, takeThrough, List.length_cons]
      rw [ih (page + 1), List.range_succ_eq_map]
      simp only [List.map_cons, List.map_map, Nat.add_zero, List.cons.injEq]
      refine ⟨trivial, List.map_congr_left ?_⟩
      intro i _
      simp only [Function.comp_apply]
      congr 1
      omega

/-- Auxiliary: the offset driver hits its `break` exactly when some
body of the script satisfies the stop test (it always reaches the first
such body). -/
theorem offset_finished_eq (pageSize : Nat) (params : Dict) (page : Nat)
    (script : List Json) :
    (offset_get_pagination pageSize params page (script.map Except.ok)).finished
      = script.any offsetStop := by
  induction script generalizing page with
  | nil => rfl
  | cons x xs ih =>
    by_cases hx : offsetStop x
    · simp [offset_get_pagination, hx]
    · simp [offset_get_pagination, hx, ih (page + 1)]

/-- C4: the offset pagination driver starts at page 1 with page size
1000 unless overridden, sends `page`, `page_size` and the filters on
every request with consecutive page numbers, yields every decoded body
in order, and stops exactly after the first body that is a bare list or
whose `next` field is falsy (`takeThrough offsetStop`); on a two-page
script whose first page has `next` set and whose second has `next`
null, exactly two requests are issued and exactly those two pages are
yielded, in order, with no third request. -/
theorem offset_pagination_behaviour (params : Dict) (pageSize : Nat)
    (script : List Json) :
    readwise_get_pagination params (script.map Except.ok)
      = readwise_get_pagination_limit_20 params (script.map Except.ok) 1000 ∧
    (readwise_get_pagination_limit_20 params (script.map Except.ok)
        pageSize).yields = takeThrough offsetStop script ∧
    (readwise_get_pagination_limit_20 params (script.map Except.ok)
        pageSize).requests
      = (List.range (takeThrough offsetStop script).length).map
          (fun i => offsetParams (1 + i) pageSize params) ∧
    (readwise_get_pagination_limit_20 params (script.map Except.ok)
        pageSize).finished = script.any offsetStop ∧
    (let q1 : Json := .obj [("next", .str "page2url")]
     let q2 : Json := .obj [("next", .null)]
     let w := readwise_get_pagination params [.ok q1, .ok q2, .ok q1]
     w.yields = [q1, q2] ∧ w.requests.length = 2 ∧ w.finished = true) :=
  ⟨rfl, offset_yields_eq pageSize params 1 script,
    offset_requests_eq pageSize params 1 script,
    offset_finished_eq pageSize params 1 script,
    rfl, rfl, rfl⟩

/-- C2: the code enforces no local rolling-window budget at all.
`get_with_limit_20` is literally `return self.get(endpoint, params)`:
its behaviour coincides with `get` on every input, and every call sends
its wire request immediately (the head of the request trace is the
initial request, unconditionally), with no window state anywhere in the
client that could make a call block. -/
theorem get_with_limit_20_is_unthrottled_get (endpoint : String)
    (params : Dict) (script : List HttpResponse) :
    readwise_get_with_limit_20 endpoint params script =
      readwise_get endpoint params script ∧
    (readwise_get_with_limit_20 endpoint params script).requests.head? =
      some ⟨"GET", v2Url ++ endpoint, params, .jsonEnc, []⟩ :=
  ⟨rfl, rfl⟩

/-- C5: the cursor driver stops — yields the page, issues no further
request whatever the rest of the script holds, and hits its `break` —
whenever the decoded body is a bare list, or its `nextPageCursor` is
falsy, or its `nextPageCursor` equals (Python `==`) the cursor just
used; in particular a server that repeats the previous cursor cannot
make the walk loop.  Conversely, when none of the three conditions
holds the walk yields the page and continues with the new cursor. -/
theorem reader_cursor_stop (cursor : Json) (params : Dict) (data : Json)
    (rest : List (Except TransportError Json)) :
    ((data.isList = true ∨ (data.get "nextPageCursor").truthy = false
        ∨ pyEq (data.get "nextPageCursor") cursor = true) →
      (reader_get_pagination cursor params (.ok data :: rest)).yields = [data] ∧
      (reader_get_pagination cursor params (.ok data :: rest)).requests.length
        = 1 ∧
      (reader_get_pagination cursor params (.ok data :: rest)).finished = true ∧
      (reader_get_pagination cursor params (.ok data :: rest)).sleeps = []) ∧
    (readerStop data cursor = false →
      (reader_get_pagination cursor params (.ok data :: rest)).yields
        = data :: (reader_get_pagination (data.get "nextPageCursor")
            (readerPs cursor params) rest).yields) := by
  constructor
  · intro h
    have hs : readerStop data cursor = true := by
      rcases h with h | h | h <;> simp [readerStop, h]
    simp [reader_get_pagination, hs]
  · intro h
    simp [reader_get_pagination, h]

/-- Witness for C5: a concrete walk already at cursor `"abc"` whose
next page again announces `nextPageCursor: "abc"` stops after that one
page even though the script offers more responses. -/
theorem reader_cursor_stop_witness :
    (pyEq ((Json.obj [("nextPageCursor", .str "abc")]).get "nextPageCursor")
        (.str "abc") = true) ∧
    (reader_get_pagination (.str "abc") []
        [.ok (.obj [("nextPageCursor", .str "abc")]),
         .ok (.obj [("nextPageCursor", .str "zzz")])]).yields
      = [.obj [("nextPageCursor", .str "abc")]] ∧
    (reader_get_pagination (.str "abc") []
        [.ok (.obj [("nextPageCursor", .str "abc")]),
         .ok (.obj [("nextPageCursor", .str "zzz")])]).requests.length = 1 ∧
    (reader_get_pagination (.str "abc") []
        [.ok (.obj [("nextPageCursor", .str "abc")]),
         .ok (.obj [("nextPageCursor", .str "zzz")])]).finished = true ∧
    (reader_get_pagination (.str "abc") []
        [.ok (.obj [("nextPageCursor", .str "abc")]),
         .ok (.obj [("nextPageCursor", .str "zzz")])]).sleeps = [] :=
  ⟨rfl,
    (reader_cursor_stop (.str "abc") [] (.obj [("nextPageCursor", .str "abc")])
      [.ok (.obj [("nextPageCursor", .str "zzz")])]).1
      (Or.inr (Or.inr rfl))⟩

/-- Auxiliary: writing the current cursor into the params dict is
idempotent, so the dict a retry re-sends is the dict already sent. -/
theorem dictSet_idem (d : Dict) (k : String) (v : Json) :
    dictSet (dictSet d k v) k v = dictSet d k v := by
  induction d with
  | nil => simp [dictSet]
  | cons kv rest ih =>
    by_cases h : kv.1 == k
    · simp [dictSet, h]
    · simp [dictSet, h, ih]

/-- Auxiliary: the params dict the driver sends is a fixed point of the
per-iteration cursor write. -/
theorem readerPs_fixed (cursor : Json) (params : Dict) :
    readerPs cursor (readerPs cursor params) = readerPs cursor params := by
  by_cases h : cursor.truthy <;> simp [readerPs, h, dictSet_idem]

/-- C6: a `ChunkedEncodingError` during a cursor walk is absorbed, not
propagated: a burst of `n+1` consecutive chunked-transfer failures makes
the reader driver sleep 5 seconds after each one and re-issue exactly
the same request (same cursor, same params dict) `n+1` times, after
which the walk proceeds over the rest of the script from the very same
state — for every `n`, with no attempt bound.  The offset (legacy)
driver, by contrast, stops at the first such failure and propagates the
exception with nothing yielded and the rest of the script untouched. -/
theorem reader_chunked_error_retry (cursor : Json) (params : Dict)
    (rest : List (Except TransportError Json)) (n : Nat) (e : TransportError)
    (pageSize page : Nat) (oparams : Dict)
    (orest : List (Except TransportError Json)) :
    (reader_get_pagination cursor params
        (List.replicate (n + 1) (.error e) ++ rest)
      = ⟨List.replicate (n + 1) (readerPs cursor params)
            ++ (reader_get_pagination cursor (readerPs cursor params)
                  rest).requests,
          List.replicate (n + 1) 5
            ++ (reader_get_pagination cursor (readerPs cursor params)
                  rest).sleeps,
          (reader_get_pagination cursor (readerPs cursor params) rest).yields,
          (reader_get_pagination cursor (readerPs cursor params) rest).finished,
          (reader_get_pagination cursor (readerPs cursor params)
            rest).finalParams⟩) ∧
    (offset_get_pagination pageSize oparams page (.error e :: orest)
      = ⟨[offsetParams page pageSize oparams], [], some e, false⟩) := by
  refine ⟨?_, rfl⟩
  induction n generalizing params with
  | zero => simp [reader_get_pagination]
  | succ m ih =>
    have step : reader_get_pagination cursor params
        (List.replicate (m + 2) (.error e) ++ rest)
      = ⟨readerPs cursor params :: (reader_get_pagination cursor
            (readerPs cursor params)
            (List.replicate (m + 1) (.error e) ++ rest)).requests,
          5 :: (reader_get_pagination cursor (readerPs cursor params)
            (List.replicate (m + 1) (.error e) ++ rest)).sleeps,
          (reader_get_pagination cursor (readerPs cursor params)
            (List.replicate (m + 1) (.error e) ++ rest)).yields,
          (reader_get_pagination cursor (readerPs cursor params)
            (List.replicate (m + 1) (.error e) ++ rest)).finished,
          (reader_get_pagination cursor (readerPs cursor params)
            (List.replicate (m + 1) (.error e) ++ rest)).finalParams⟩ := by
      rfl
    rw [step, ih (readerPs cursor params), readerPs_fixed]
    simp [List.replicate_succ]

/-- C7: listing is NOT restartable per call on the reader surface.
Concretely: `get_documents()` is invoked twice with no `params`
argument; during the first walk page 1 announces `nextPageCursor
"abc"` and page 2 is terminal.  The first walk's requests are fresh
(`[]` then the cursor), but the second invocation's first request
already carries `pageCursor = "abc"` leaked through the shared default
`params` dict — it does not start from no cursor.  The legacy offset
driver, by contrast, always starts any invocation at page 1 with the
caller's params merged fresh. -/
theorem get_documents_second_call_leaks_cursor :
    ((get_documents_twice
        [.ok (.obj [("nextPageCursor", .str "abc"), ("results", .list [])]),
         .ok (.obj [("nextPageCursor", .null), ("results", .list [])])]
        [.ok (.obj [("nextPageCursor", .null), ("results", .list [])])]).1.requests
      = [[], [("pageCursor", .str "abc")]]) ∧
    ((get_documents_twice
        [.ok (.obj [("nextPageCursor", .str "abc"), ("results", .list [])]),
         .ok (.obj [("nextPageCursor", .null), ("results", .list [])])]
        [.ok (.obj [("nextPageCursor", .null), ("results", .list [])])]).2.requests
      = [[("pageCursor", .str "abc")]]) ∧
    (∀ (params : Dict) (r : Except TransportError Json)
        (rest : List (Except TransportError Json)),
      (readwise_get_pagination params (r :: rest)).requests.head?
        = some (offsetParams 1 1000 params)) := by
  refine ⟨rfl, rfl, ?_⟩
  intro params r rest
  cases r with
  | error e => rfl
  | ok d =>
    by_cases h : offsetStop d <;>
      simp [readwise_get_pagination, offset_get_pagination, h]

/-- C8: `datetime.fromisoformat(x) if x else None` maps a null or
empty `last_highlight_at` / `updated` field to the explicit absent
value `none` without attempting a parse, and a parseable (hence
nonempty) ISO string to `some` of the parsed instant; the bare
`datetime.fromisoformat(x)` used for the reader documents'
`created_at` / `updated_at` always parses, raising `ValueError` on any
malformed string and `TypeError` on null. -/
theorem timestamp_decoding (τ : Type) (fromiso : String → Option τ) :
    decodeNullableTimestamp fromiso .null = .ok none ∧
    decodeNullableTimestamp fromiso (.str "") = .ok none ∧
    (∀ (s : String) (t : τ), s.isEmpty = false → fromiso s = some t →
      decodeNullableTimestamp fromiso (.str s) = .ok (some t)) ∧
    (∀ (s : String) (t : τ), fromiso s = some t →
      decodeRequiredTimestamp fromiso (.str s) = .ok t) ∧
    (∀ s : String, fromiso s = none →
      decodeRequiredTimestamp fromiso (.str s) = .error .valueError) ∧
    decodeRequiredTimestamp fromiso .null = .error .typeError := by
  refine ⟨rfl, rfl, ?_, ?_, ?_, rfl⟩
  · intro s t hs h
    simp [decodeNullableTimestamp, Json.truthy, hs, h]
  · intro s t h
    simp [decodeRequiredTimestamp, h]
  · intro s h
    simp [decodeRequiredTimestamp, h]

/-- Witness for C8 at a concrete parser: the valid string decodes to
`some` of its instant in both the nullable and the required position,
the malformed string raises `ValueError` in the required position, and
null decodes to the absent value in the nullable position. -/
theorem timestamp_decoding_witness :
    decodeNullableTimestamp
        (fun s => if s == "2020-01-01T00:00:00" then some 42 else none)
        (.str "2020-01-01T00:00:00") = .ok (some 42) ∧
    decodeRequiredTimestamp
        (fun s => if s == "2020-01-01T00:00:00" then some 42 else none)
        (.str "garbage") = .error .valueError ∧
    decodeNullableTimestamp
        (fun s => if s == "2020-01-01T00:00:00" then some 42 else none)
        .null = .ok none :=
  ⟨(timestamp_decoding Nat
      (fun s => if s == "2020-01-01T00:00:00" then some 42 else none)).2.2.1
      "2020-01-01T00:00:00" 42 rfl rfl,
   (timestamp_decoding Nat
      (fun s => if s == "2020-01-01T00:00:00" then some 42 else none)).2.2.2.2.1
      "garbage" rfl,
   (timestamp_decoding Nat
      (fun s => if s == "2020-01-01T00:00:00" then some 42 else none)).1⟩

/-- C3: no code path of `_request` raises
`ReadwiseRateLimitException`, on any input — there is no local rate
gate, no exponential backoff and no 8-attempt bound; the exception class
is declared but dead. -/
theorem request_never_raises_rate_limit_exception
    (baseUrl method endpoint : String) (params data : Dict)
    (script : List HttpResponse) :
    isRateLimitError
      (readwise_request baseUrl method endpoint params data script).result
      = false :=
  requestLoop_never_rate_limit method (baseUrl ++ endpoint) params data script

/-- C9: `create_highlight` always posts the batch envelope
`highlights: [payload]` even for a single highlight; with only `text`
and `title` supplied the payload is exactly `text`, `title` and the
default `category: articles`, with no optional key present; and each
optional key (`author`, `source_url`, `note` by truthiness,
`highlighted_at` as the ISO string of the supplied datetime) is present
in the payload exactly when its argument was provided (and truthy), is
never bound to a JSON null, and is simply absent otherwise. -/
theorem create_highlight_body_shape (δ : Type) (isoformat : δ → String)
    (text title : String) (author : Option String) (ha : Option δ)
    (su : Option String) (category : String) (nt : Option String) :
    create_highlight_body isoformat text title none none none "articles" none
      = .obj [("highlights", .list [.obj [("text", .str text),
          ("title", .str title), ("category", .str "articles")]])] ∧
    create_highlight_body isoformat text title author ha su category nt
      = .obj [("highlights", .list [.obj (create_highlight_payload isoformat
          text title author ha su category nt)])] ∧
    dictHas (create_highlight_payload isoformat text title author ha su
      category nt) "text" = true ∧
    dictHas (create_highlight_payload isoformat text title author ha su
      category nt) "title" = true ∧
    dictHas (create_highlight_payload isoformat text title author ha su
      category nt) "category" = true ∧
    dictHas (create_highlight_payload isoformat text title author ha su
      category nt) "author" = pyStrTruthy author ∧
    dictHas (create_highlight_payload isoformat text title author ha su
      category nt) "highlighted_at" = ha.isSome ∧
    dictHas (create_highlight_payload isoformat text title author ha su
      category nt) "source_url" = pyStrTruthy su ∧
    dictHas (create_highlight_payload isoformat text title author ha su
      category nt) "note" = pyStrTruthy nt ∧
    dictGet (create_highlight_payload isoformat text title author ha su
      category nt) "highlighted_at"
      = (match ha with | some d => Json.str (isoformat d) | none => .null) ∧
    (create_highlight_payload isoformat text title author ha su category
      nt).all (fun kv => !kv.2.isNull) = true := by
  refine ⟨rfl, rfl, ?_⟩
  rcases author with _ | a <;> rcases ha with _ | d <;> rcases su with _ | s1 <;>
    rcases nt with _ | s2 <;>
    simp only [create_highlight_payload, addIfTruthy, pyStrTruthy] <;>
    (try split_ifs) <;>
    (try simp_all only [Bool.not_true, Bool.not_false]) <;>
    exact ⟨rfl, rfl, rfl, rfl, rfl, rfl, rfl, rfl, rfl⟩

/-- C10: in `create_highlight` and `create_document` every optional
string argument is included by Python truthiness, so passing the falsy
empty string produces exactly the body obtained by not passing the
argument at all; the one exception is `should_clean_html`, which is
tested with `is not None`, so `should_clean_html=False` IS written into
the body (as JSON `false`) while leaving it out is the only way to omit
the key. -/
theorem falsy_optional_arguments_omitted (δ : Type) (isoformat : δ → String)
    (text title url : String) (ha pa : Option δ) (a su nt : Option String)
    (category : String) (sch : Option Bool) (t au sm iu sv : Option String)
    (loc : String) (tags : List String) :
    create_highlight_payload isoformat text title (some "") ha su category nt
      = create_highlight_payload isoformat text title none ha su category nt ∧
    create_highlight_payload isoformat text title a ha (some "") category nt
      = create_highlight_payload isoformat text title a ha none category nt ∧
    create_highlight_payload isoformat text title a ha su category (some "")
      = create_highlight_payload isoformat text title a ha su category none ∧
    create_document_data isoformat url (some "") sch t au sm pa iu loc sv tags
      = create_document_data isoformat url none sch t au sm pa iu loc sv
          tags ∧
    create_document_data isoformat url a sch (some "") au sm pa iu loc sv tags
      = create_document_data isoformat url a sch none au sm pa iu loc sv
          tags ∧
    create_document_data isoformat url a sch t (some "") sm pa iu loc sv tags
      = create_document_data isoformat url a sch t none sm pa iu loc sv
          tags ∧
    create_document_data isoformat url a sch t au (some "") pa iu loc sv tags
      = create_document_data isoformat url a sch t au none pa iu loc sv
          tags ∧
    create_document_data isoformat url a sch t au sm pa (some "") loc sv tags
      = create_document_data isoformat url a sch t au sm pa none loc sv
          tags ∧
    create_document_data isoformat url a sch t au sm pa iu loc (some "") tags
      = create_document_data isoformat url a sch t au sm pa iu loc none
          tags ∧
    dictGet (create_document_data isoformat url none (some false))
      "should_clean_html" = .bool false ∧
    dictHas (create_document_data isoformat url none (some false))
      "should_clean_html" = true ∧
    dictHas (create_document_data isoformat url none none)
      "should_clean_html" = false :=
  ⟨rfl, rfl, rfl, rfl, rfl, rfl, rfl, rfl, rfl, rfl, rfl, rfl⟩

/-- Auxiliary: unfolding key membership over a cons cell. -/
theorem dictHas_cons (x : String × Json) (xs : Dict) (k : String) :
    dictHas (x :: xs) k = ((x.1 == k) || dictHas xs k) := by
  simp [dictHas]

/-- Auxiliary: unfolding lookup over a cons cell. -/
theorem dictGet_cons (x : String × Json) (xs : Dict) (k : String) :
    dictGet (x :: xs) k = if x.1 == k then x.2 else dictGet xs k := by
  by_cases h : x.1 == k <;> simp [dictGet, List.find?, h]

/-- Auxiliary: key membership after a `dict` write. -/
theorem dictHas_dictSet (d : Dict) (k k' : String) (v : Json) :
    dictHas (dictSet d k v) k' = ((k == k') || dictHas d k') := by
  induction d with
  | nil => simp [dictSet, dictHas]
  | cons kv rest ih =>
    by_cases h : kv.1 == k
    · have hk : kv.1 = k := by simpa using h
      rw [show dictSet (kv :: rest) k v = (kv.1, v) :: rest by
        simp [dictSet, h]]
      rw [dictHas_cons, dictHas_cons, hk]
      by_cases h' : k == k' <;> simp [h']
    · rw [show dictSet (kv :: rest) k v = kv :: dictSet rest k v by
        simp [dictSet, h]]
      rw [dictHas_cons, dictHas_cons, ih]
      by_cases h' : kv.1 == k' <;> by_cases h'' : k == k' <;>
        simp [h', h'']

/-- Auxiliary: lookup after a `dict` write to the same key. -/
theorem dictGet_dictSet_self (d : Dict) (k : String) (v : Json) :
    dictGet (dictSet d k v) k = v := by
  induction d with
  | nil => simp [dictSet, dictGet, List.find?]
  | cons kv rest ih =>
    by_cases h : kv.1 == k
    · rw [show dictSet (kv :: rest) k v = (kv.1, v) :: rest by
        simp [dictSet, h]]
      rw [dictGet_cons]
      simp [h]
    · rw [show dictSet (kv :: rest) k v = kv :: dictSet rest k v by
        simp [dictSet, h]]
      rw [dictGet_cons, ih]
      simp [h]

/-- Auxiliary: lookup after a `dict` write to a different key. -/
theorem dictGet_dictSet_other (d : Dict) (k k' : String) (v : Json)
    (h : (k == k') = false) :
    dictGet (dictSet d k v) k' = dictGet d k' := by
  induction d with
  | nil =>
    simp only [dictSet, dictGet, List.find?]
    simp [h]
  | cons kv rest ih =>
    by_cases hh : kv.1 == k
    · have hk : kv.1 = k := by simpa using hh
      rw [show dictSet (kv :: rest) k v = (kv.1, v) :: rest by
        simp [dictSet, hh]]
      rw [dictGet_cons, dictGet_cons, hk]
      simp [h]
    · rw [show dictSet (kv :: rest) k v = kv :: dictSet rest k v by
        simp [dictSet, hh]]
      rw [dictGet_cons, dictGet_cons, ih]

/-- Auxiliary: key membership through a conditional optional-string
write. -/
theorem dictHas_addIfTruthy_self (p : Dict) (k : String) (v : Option String)
    (h : dictHas p k = false) :
    dictHas (addIfTruthy p k v) k = pyStrTruthy v := by
  cases v with
  | none => simpa [addIfTruthy, pyStrTruthy]
  | some s =>
    by_cases hs : s.isEmpty <;>
      simp [addIfTruthy, pyStrTruthy, hs, dictHas_dictSet, h]

/-- Auxiliary: a conditional optional-string write leaves other keys'
membership unchanged. -/
theorem dictHas_addIfTruthy_other (p : Dict) (k k' : String)
    (v : Option String) (h : (k == k') = false) :
    dictHas (addIfTruthy p k v) k' = dictHas p k' := by
  cases v with
  | none => simp [addIfTruthy]
  | some s =>
    by_cases hs : s.isEmpty <;> simp [addIfTruthy, hs, dictHas_dictSet, h]

/-- Auxiliary: a conditional optional-string write leaves other keys'
values unchanged. -/
theorem dictGet_addIfTruthy_other (p : Dict) (k k' : String)
    (v : Option String) (h : (k == k') = false) :
    dictGet (addIfTruthy p k v) k' = dictGet p k' := by
  cases v with
  | none => simp [addIfTruthy]
  | some s =>
    by_cases hs : s.isEmpty <;>
      simp [addIfTruthy, hs, dictGet_dictSet_other _ _ _ _ h]

end Readwise
